import Mathlib

/-!
Shallow embedding of the im-server gateway core
(src/im-server/gateway/service.go together with the auth package's
VerifyToken): the session registry (`conns`, a `sync.Map` modelled as an
association list with at most one entry per key), the single upstream bus
stream (`gatewayStream`), the bidirectional forwarding loops, the JWT
admission check, and the bounded bus-availability wait.

Client websocket connections are identified by numeric connection ids; a
connection's observable state is whether it has been closed and the ordered
list of messages written to it.  Everything the gateway does is also recorded
in an ordered event trace so that ordering properties (for example
"`session_open` is emitted before the session is registered") are statable.
-/

/-- Event type of a bus envelope (`EventType` in service.go). -/
inductive EventType where
  | session_open
  | session_close
  | data
deriving DecidableEq, Repr

/-- The bus envelope `ImMessage` of service.go.  `MessageType` is the Go
`int` websocket frame type (`websocket.TextMessage = 1`); the payload is a
byte sequence. -/
structure ImMessage where
  event : EventType
  sessionID : String
  headers : List (String × String)
  messageType : Int
  payload : List Nat
deriving DecidableEq, Repr

/-- Association-list lookup (`sync.Map.Load` / `http.Header` lookup). -/
def assocGet {α β : Type} [DecidableEq α] : List (α × β) → α → Option β
  | [], _ => none
  | (k', v) :: t, k => if k' = k then some v else assocGet t k

/-- Association-list update-or-insert (`sync.Map.Store` / `Header.Set`). -/
def assocSet {α β : Type} [DecidableEq α] : List (α × β) → α → β → List (α × β)
  | [], k, v => [(k, v)]
  | (k', v') :: t, k, v => if k' = k then (k, v) :: t else (k', v') :: assocSet t k v

/-- Association-list removal (`sync.Map.Delete`). -/
def assocDel {α β : Type} [DecidableEq α] : List (α × β) → α → List (α × β)
  | [], _ => []
  | (k', v') :: t, k => if k' = k then assocDel t k else (k', v') :: assocDel t k

/-- Observable state of one client websocket connection. -/
structure ConnState where
  closed : Bool
  writes : List (Int × List Nat)
deriving DecidableEq, Repr

/-- One observable action of the gateway, in program order. -/
inductive GwEvent where
  | storeSession (sid : String)
  | deleteSession (sid : String)
  | busSend (msg : ImMessage)
  | busDrop (msg : ImMessage)
  | clientWrite (cid : Nat) (mtype : Int) (payload : List Nat)
  | clientClose (cid : Nat)
deriving DecidableEq, Repr

/-- State of `IMGatewayServer`: the session registry `conns`
(session id to connection id), the per-connection states, the optional AI bus
stream reference `gatewayStream`, the envelopes actually written upstream,
and the ordered event trace. -/
structure GatewayState where
  conns : List (String × Nat)
  connStates : List (Nat × ConnState)
  gatewayStream : Option Nat
  sentToBus : List ImMessage
  events : List GwEvent
deriving DecidableEq, Repr

/-- `s.conns.Store(sessionID, conn)`. -/
def connsStore (st : GatewayState) (sid : String) (cid : Nat) : GatewayState :=
  { st with conns := assocSet st.conns sid cid,
            events := st.events ++ [GwEvent.storeSession sid] }

/-- `s.conns.Delete(sessionID)`. -/
def connsDelete (st : GatewayState) (sid : String) : GatewayState :=
  { st with conns := assocDel st.conns sid,
            events := st.events ++ [GwEvent.deleteSession sid] }

/-- State of conn `cid` (fresh connections start open with no writes). -/
def getConn (st : GatewayState) (cid : Nat) : ConnState :=
  (assocGet st.connStates cid).getD { closed := false, writes := [] }

/-- `conn.Close()`: marks the connection closed (idempotent). -/
def connClose (st : GatewayState) (cid : Nat) : GatewayState :=
  { st with connStates := assocSet st.connStates cid { getConn st cid with closed := true },
            events := st.events ++ [GwEvent.clientClose cid] }

/-- `conn.WriteMessage(mtype, payload)`. -/
def connWrite (st : GatewayState) (cid : Nat) (mtype : Int) (payload : List Nat) : GatewayState :=
  let c := getConn st cid
  { st with connStates := assocSet st.connStates cid { c with writes := c.writes ++ [(mtype, payload)] },
            events := st.events ++ [GwEvent.clientWrite cid mtype payload] }

/-- `gatewaySend` (service.go): under the bus mutex, drop the message when no
bus stream is active, otherwise write it to the stream. -/
def gatewaySend (st : GatewayState) (msg : ImMessage) : GatewayState :=
  match st.gatewayStream with
  | none => { st with events := st.events ++ [GwEvent.busDrop msg] }
  | some _ => { st with sentToBus := st.sentToBus ++ [msg],
                        events := st.events ++ [GwEvent.busSend msg] }

/-- `IsGatewayConnected` (service.go lines 103-107). -/
def IsGatewayConnected (st : GatewayState) : Bool :=
  st.gatewayStream.isSome

/-- `ActiveSessions` (service.go): number of registry entries. -/
def ActiveSessions (st : GatewayState) : Nat :=
  st.conns.length

/-- `forwardToClient` (service.go lines 166-198): drop when the session id is
empty or unknown; on `session_close` close the client connection and delete
the registry entry; otherwise write the payload with the envelope's framing
type, defaulting to text (`websocket.TextMessage = 1`) when unset.  (The Go
`msg == nil` guard has no counterpart here: envelopes are always values.) -/
def forwardToClient (st : GatewayState) (msg : ImMessage) : GatewayState :=
  if msg.sessionID = "" then st
  else
    match assocGet st.conns msg.sessionID with
    | none => st
    | some cid =>
      if msg.event = EventType.session_close then
        connsDelete (connClose st cid) msg.sessionID
      else
        let mtype := if msg.messageType ≠ 0 then msg.messageType else 1
        connWrite st cid mtype msg.payload

/-- `messageGatewayHandler` (service.go lines 141-162): store the accepted
bus stream, then read envelopes and forward each to its client until the
stream ends.  The input is the sequence of successfully received envelopes
followed by the terminating read result (`endErr = false` for `io.EOF`,
`true` for any other read error, which the handler returns).  Note the
handler never resets `gatewayStream`. -/
def messageGatewayHandler (streamId : Nat) (msgs : List ImMessage) (endErr : Bool)
    (st : GatewayState) : GatewayState × Bool :=
  let st1 := { st with gatewayStream := some streamId }
  (msgs.foldl forwardToClient st1, endErr)

/-- Value of a decoded JWT claim (JSON string / number / anything else). -/
inductive ClaimVal where
  | str (s : String)
  | num (n : Int)
  | other
deriving DecidableEq, Repr

/-- A bearer token abstracted at the golang-jwt/v5 library boundary: whether
its serialized form parses, whether its signing method is in the HMAC family
and is exactly HS256, whether its signature verifies under the shared
secret, and its claim set. -/
structure JwtToken where
  wellFormed : Bool
  algHmac : Bool
  algHS256 : Bool
  sigOk : Bool
  claims : List (String × ClaimVal)
deriving DecidableEq, Repr

/-- `claims[k].(string)`. -/
def claimStr (cs : List (String × ClaimVal)) (k : String) : Option String :=
  match assocGet cs k with
  | some (ClaimVal.str s) => some s
  | _ => none

/-- `claims[k].(float64)` (JSON numbers decode as numbers). -/
def claimNum (cs : List (String × ClaimVal)) (k : String) : Option Int :=
  match assocGet cs k with
  | some (ClaimVal.num n) => some n
  | _ => none

/-- jwt/v5 `exp` validation: expired when an `exp` claim is present and in
the past; a missing `exp` is not an error for the default parser. -/
def expiredAt (tok : JwtToken) (now : Int) : Bool :=
  match claimNum tok.claims "exp" with
  | some e => decide (e < now)
  | none => false

/-- A parsed token as returned by the library: `Valid` flag plus claims. -/
structure ParsedTok where
  valid : Bool
  claims : List (String × ClaimVal)
deriving DecidableEq, Repr

/-- Model of `parser.Parse` (golang-jwt/v5) with the keyfunc of VerifyToken:
on a structurally malformed token, no token and an error; otherwise the token
is returned (even when verification fails) together with an error flag that
is set on a non-HMAC method (keyfunc), on an algorithm outside the parser's
valid-methods restriction when one was configured, on signature failure, or
on an expired `exp` claim; `Valid` is true exactly when there is no error. -/
def jwtParse (restrictHS256 : Bool) (tok : JwtToken) (now : Int) : Option ParsedTok × Bool :=
  if !tok.wellFormed then (none, true)
  else
    let methodErr := (restrictHS256 && !tok.algHS256) || !tok.algHmac
    let hasErr := methodErr || !tok.sigOk || expiredAt tok now
    (some { valid := !hasErr, claims := tok.claims }, hasErr)

/-- `VerifyToken` (auth package): result is
`(isValid, deviceID, userID, hasError)`.  With `ignoreExpiry = [true]` the
parser is rebuilt with `WithValidMethods([HS256])` (which does not disable
claim validation) and parse errors are tolerated as long as a token object
was produced; otherwise any parse error or an invalid token rejects.  The
`device_id` claim must be a string and `user_id` a number. -/
def VerifyToken (atNil secretNil : Bool) (tok : JwtToken) (now : Int)
    (ignoreExpiry : List Bool) : Bool × String × Nat × Bool :=
  if atNil then (false, "", 0, true)
  else if secretNil then (false, "", 0, true)
  else
    let skipExpiry := match ignoreExpiry with
      | [] => false
      | b :: _ => b
    let pr := jwtParse skipExpiry tok now
    if pr.2 && !skipExpiry then (false, "", 0, true)
    else
      match pr.1 with
      | none => (false, "", 0, true)
      | some t =>
        if !skipExpiry && !t.valid then (false, "", 0, true)
        else
          match claimStr t.claims "device_id" with
          | none => (false, "", 0, true)
          | some deviceID =>
            match claimNum t.claims "user_id" with
            | none => (false, "", 0, true)
            | some userID => (true, deviceID, userID.toNat, false)

/-- An inbound HTTP upgrade request: headers and URL query parameters. -/
structure Request where
  headers : List (String × String)
  query : List (String × String)
deriving DecidableEq, Repr

/-- `r.Header.Get(k)` (empty string when absent). -/
def headerGet (hs : List (String × String)) (k : String) : String :=
  (assocGet hs k).getD ""

/-- `r.Header.Set(k, v)`. -/
def headerSet (hs : List (String × String)) (k : String) (v : String) :
    List (String × String) :=
  assocSet hs k v

/-- `r.URL.Query().Get(k)`. -/
def queryGet (r : Request) (k : String) : String :=
  (assocGet r.query k).getD ""

/-- `verifyJWTAuth` (service.go lines 306-330): require a Bearer
authorization header (`strings.HasPrefix(authHeader, "Bearer ")` and the
slice `authHeader[7:]` are modelled on the character list), verify the token
(the serialized credential is decoded at the library boundary by `decode`),
then compare the token's device claim against the `Device-Id` header;
`some userID` on success, `none` on any failure. -/
def verifyJWTAuth (decode : String → JwtToken) (now : Int) (r : Request) : Option Nat :=
  let authHeader := headerGet r.headers "Authorization"
  if authHeader.toList.take 7 = "Bearer ".toList then
    let token := (authHeader.toList.drop 7).asString
    match VerifyToken false false (decode token) now [] with
    | (isValid, deviceID, userID, err) =>
      if err || !isValid then none
      else if headerGet r.headers "Device-Id" ≠ deviceID then none
      else some userID
  else none

/-- The polling loop of `waitGatewayConnected`: at time `t` (milliseconds
since entry), while the deadline has not passed, return true as soon as a
poll observes connectivity, else sleep one interval and retry.  `connAt t`
is the bus connectivity observed by the poll at time `t`; the fuel bounds
the number of iterations (the caller supplies enough for the deadline). -/
def waitLoop (connAt : Nat → Bool) (deadline interval : Nat) : Nat → Nat → Bool
  | _, 0 => false
  | t, fuel + 1 =>
    if t < deadline then
      if connAt t then true
      else waitLoop connAt deadline interval (t + interval) fuel
    else false

/-- `waitGatewayConnected` (service.go lines 353-369): poll bus connectivity
every `intervalMs` until `timeoutMs` elapses. -/
def waitGatewayConnected (connAt : Nat → Bool) (timeoutMs intervalMs : Nat) : Bool :=
  waitLoop connAt timeoutMs intervalMs 0 (timeoutMs / intervalMs + 1)

/-- Browser compatibility block of `HandleWebSocket` (service.go lines
205-224): copy non-empty query parameters into the corresponding headers;
the `token` parameter becomes both a Bearer authorization header and a
`Token` header. -/
def browserTranslate (r : Request) : Request :=
  let h0 := r.headers
  let h1 := if queryGet r "device-id" ≠ "" then headerSet h0 "Device-Id" (queryGet r "device-id") else h0
  let h2 := if queryGet r "client-id" ≠ "" then headerSet h1 "Client-Id" (queryGet r "client-id") else h1
  let h3 := if queryGet r "session-id" ≠ "" then headerSet h2 "Session-Id" (queryGet r "session-id") else h2
  let h4 := if queryGet r "transport-type" ≠ "" then headerSet h3 "Transport-Type" (queryGet r "transport-type") else h3
  let h5 := if queryGet r "token" ≠ "" then
      headerSet (headerSet h4 "Authorization" ("Bearer " ++ queryGet r "token")) "Token" (queryGet r "token")
    else h4
  { r with headers := h5 }

/-- Outcome of `HandleWebSocket` for one request. -/
inductive WsResult where
  | unauthorized
  | unavailable
  | upgradeFailed
  | sessionStarted (sessionID : String) (connID : Nat)
deriving DecidableEq, Repr

/-- Environment of one `HandleWebSocket` call: the browser-compatibility
config flag, the token decoder and clock (admission), the bus connectivity
observed by each wait poll (the bus handler runs concurrently), whether the
websocket upgrade succeeds, the fresh UUID used when the client requested no
session id, and the id of the newly upgraded connection. -/
structure HwEnv where
  browser : Bool
  decode : String → JwtToken
  now : Int
  busConnAt : Nat → Bool
  upgradeOk : Bool
  newUuid : String
  newConnId : Nat

/-- `HandleWebSocket` (service.go lines 203-301) up to spawning the
per-session read loop: browser header translation, JWT authentication
(rejecting with 401 before anything else happens), the bounded bus wait
(rejecting with 503), the upgrade, session-id selection, registration of the
new connection, and the `session_open` envelope carrying the full header
set.  The spawned read loop itself is `runClientLoop`. -/
def HandleWebSocket (env : HwEnv) (st : GatewayState) (r0 : Request) :
    WsResult × GatewayState :=
  let r1 := if env.browser then browserTranslate r0 else r0
  match verifyJWTAuth env.decode env.now r1 with
  | none => (WsResult.unauthorized, st)
  | some userID =>
    let r2 : Request := { r1 with headers := headerSet r1.headers "User-Id" (toString userID) }
    if !(waitGatewayConnected env.busConnAt 2000 100) then (WsResult.unavailable, st)
    else if !env.upgradeOk then (WsResult.upgradeFailed, st)
    else
      let sid0 := headerGet r2.headers "Session-Id"
      let sessionID := if sid0 = "" then env.newUuid else sid0
      let stc := { st with connStates := assocSet st.connStates env.newConnId { closed := false, writes := [] } }
      let st1 := connsStore stc sessionID env.newConnId
      let openMsg : ImMessage :=
        { event := EventType.session_open
          sessionID := sessionID
          headers := [("Device-Id", headerGet r2.headers "Device-Id"),
                      ("Client-Id", headerGet r2.headers "Client-Id"),
                      ("Session-Id", sessionID),
                      ("Transport-Type", headerGet r2.headers "Transport-Type"),
                      ("Authorization", headerGet r2.headers "Authorization"),
                      ("User-Id", headerGet r2.headers "User-Id")]
          messageType := 0
          payload := [] }
      let st2 := gatewaySend st1 openMsg
      (WsResult.sessionStarted sessionID env.newConnId, st2)

/-- The `session_close` envelope `&ImMessage{Event: EventSessionClose,
SessionID: sessionID}`. -/
def closeMsg (sid : String) : ImMessage :=
  { event := EventType.session_close, sessionID := sid, headers := [],
    messageType := 0, payload := [] }

/-- The deferred teardown of the per-session read loop (service.go lines
275-280): delete the registry entry, send a `session_close` envelope for the
session, close the client connection. -/
def sessionTeardown (sid : String) (cid : Nat) (st : GatewayState) : GatewayState :=
  connClose (gatewaySend (connsDelete st sid) (closeMsg sid)) cid

/-- Forwarding of one successfully read client frame as a `data` envelope
(service.go lines 293-298). -/
def sendDataFrame (sid : String) (s : GatewayState) (f : Int × List Nat) : GatewayState :=
  gatewaySend s
    { event := EventType.data, sessionID := sid, headers := [],
      messageType := f.1, payload := f.2 }

/-- The per-session read loop (service.go lines 273-300): forward each
successfully read client frame to the bus as a `data` envelope; when the
read fails (any cause), run the deferred teardown.  `frames` is the sequence
of frames read before the terminating read error. -/
def runClientLoop (sid : String) (cid : Nat) (frames : List (Int × List Nat))
    (st : GatewayState) : GatewayState :=
  sessionTeardown sid cid (frames.foldl (sendDataFrame sid) st)

/-- Number of `session_close` envelopes for `sid` among `l`. -/
def countClose (sid : String) (l : List ImMessage) : Nat :=
  (l.filter (fun m => m.event == EventType.session_close && m.sessionID == sid)).length

/-- The empty gateway state (fresh server, no bus, no sessions). -/
def initialState : GatewayState :=
  { conns := [], connStates := [], gatewayStream := none, sentToBus := [], events := [] }

/-! ## Concrete inputs used by the witnesses -/

/-- A well-signed HS256 token bound to device `dev-1`, user 7, expiring at 100. -/
def tokW : JwtToken :=
  { wellFormed := true, algHmac := true, algHS256 := true, sigOk := true,
    claims := [("device_id", ClaimVal.str "dev-1"), ("user_id", ClaimVal.num 7),
               ("exp", ClaimVal.num 100)] }

/-- Same token except its `device_id` claim names `dev-2`. -/
def tokOtherDevW : JwtToken :=
  { tokW with claims := [("device_id", ClaimVal.str "dev-2"), ("user_id", ClaimVal.num 7),
                         ("exp", ClaimVal.num 100)] }

/-- Credential decoder: serialized credential `"tok2"` is the `dev-2` token,
anything else the `dev-1` token. -/
def decodeW : String → JwtToken :=
  fun s => if s = "tok2" then tokOtherDevW else tokW

/-- A request presenting the `dev-1` credential from device `dev-1`. -/
def rGoodW : Request :=
  { headers := [("Authorization", "Bearer tok1"), ("Device-Id", "dev-1"),
                ("Client-Id", "c1"), ("Session-Id", "s1"), ("Transport-Type", "websocket")],
    query := [] }

/-- The same request presenting the `dev-2` credential instead. -/
def rOtherDevW : Request :=
  { rGoodW with headers := [("Authorization", "Bearer tok2"), ("Device-Id", "dev-1"),
                ("Client-Id", "c1"), ("Session-Id", "s1"), ("Transport-Type", "websocket")] }

/-- A request with no Authorization header at all. -/
def rNoAuthW : Request :=
  { headers := [("Device-Id", "dev-1")], query := [] }

/-- Environment with the bus connected at every wait poll. -/
def envW : HwEnv :=
  { browser := false, decode := decodeW, now := 50, busConnAt := fun _ => true,
    upgradeOk := true, newUuid := "u1", newConnId := 1 }

/-- Environment in which no wait poll ever observes bus connectivity. -/
def envDownW : HwEnv :=
  { envW with busConnAt := fun _ => false }

/-- Environment for a second connection (fresh connection id 2). -/
def envReuseW : HwEnv :=
  { envW with newConnId := 2 }

/-- A state whose bus stream is accepted (stream id 0) and that already has
one registered session `s1` on connection 1. -/
def stBusW : GatewayState :=
  { conns := [("s1", 1)], connStates := [(1, { closed := false, writes := [] })],
    gatewayStream := some 0, sentToBus := [], events := [] }

/-- Like `stBusW` but with an empty registry. -/
def stBusEmptyW : GatewayState :=
  { conns := [], connStates := [], gatewayStream := some 0, sentToBus := [], events := [] }

/-- The session id chosen by `HandleWebSocket` for an admitted request:
the `Session-Id` header (after the `User-Id` header was injected), or the
fresh UUID when the client did not request one. -/
def sidOf (env : HwEnv) (r : Request) (uid : Nat) : String :=
  let h2 := headerSet r.headers "User-Id" (toString uid)
  if headerGet h2 "Session-Id" = "" then env.newUuid else headerGet h2 "Session-Id"

/-- The `session_open` envelope emitted by `HandleWebSocket` for an admitted
request (service.go lines 259-270). -/
def openMsgOf (env : HwEnv) (r : Request) (uid : Nat) : ImMessage :=
  let h2 := headerSet r.headers "User-Id" (toString uid)
  { event := EventType.session_open
    sessionID := sidOf env r uid
    headers := [("Device-Id", headerGet h2 "Device-Id"),
                ("Client-Id", headerGet h2 "Client-Id"),
                ("Session-Id", sidOf env r uid),
                ("Transport-Type", headerGet h2 "Transport-Type"),
                ("Authorization", headerGet h2 "Authorization"),
                ("User-Id", headerGet h2 "User-Id")]
    messageType := 0
    payload := [] }

/-- The concrete `session_open` envelope produced for `rGoodW` under `envW`. -/
def openMsgW : ImMessage :=
  { event := EventType.session_open, sessionID := "s1",
    headers := [("Device-Id", "dev-1"), ("Client-Id", "c1"), ("Session-Id", "s1"),
                ("Transport-Type", "websocket"), ("Authorization", "Bearer tok1"),
                ("User-Id", "7")],
    messageType := 0, payload := [] }

/-! ## Association-list lemmas -/

theorem assocGet_assocSet_self {α β : Type} [DecidableEq α] (l : List (α × β)) (k : α) (v : β) :
    assocGet (assocSet l k v) k = some v := by
  induction l with
  | nil => simp [assocSet, assocGet]
  | cons p t ih =>
    obtain ⟨k', v'⟩ := p
    by_cases h : k' = k
    · simp [assocSet, assocGet, h]
    · simp [assocSet, assocGet, h, ih]

theorem assocGet_assocSet_ne {α β : Type} [DecidableEq α] (l : List (α × β)) (k k' : α) (v : β)
    (h : k' ≠ k) : assocGet (assocSet l k v) k' = assocGet l k' := by
  induction l with
  | nil => simp [assocSet, assocGet, Ne.symm h]
  | cons p t ih =>
    obtain ⟨k0, v0⟩ := p
    by_cases h0 : k0 = k
    · simp [assocSet, assocGet, h0, Ne.symm h]
    · simp only [assocSet, if_neg h0, assocGet]
      by_cases h1 : k0 = k'
      · simp [h1]
      · simp [h1, ih]

theorem assocGet_assocDel_self {α β : Type} [DecidableEq α] (l : List (α × β)) (k : α) :
    assocGet (assocDel l k) k = none := by
  induction l with
  | nil => simp [assocDel, assocGet]
  | cons p t ih =>
    obtain ⟨k0, v0⟩ := p
    by_cases h0 : k0 = k
    · simp [assocDel, h0, ih]
    · simp [assocDel, h0, assocGet, ih]

theorem assocGet_assocDel_ne {α β : Type} [DecidableEq α] (l : List (α × β)) (k k' : α)
    (h : k' ≠ k) : assocGet (assocDel l k) k' = assocGet l k' := by
  induction l with
  | nil => simp [assocDel]
  | cons p t ih =>
    obtain ⟨k0, v0⟩ := p
    by_cases h0 : k0 = k
    · simp [assocDel, h0, assocGet, Ne.symm h, ih]
    · simp only [assocDel, if_neg h0, assocGet]
      by_cases h1 : k0 = k'
      · simp [h1]
      · simp [h1, ih]

theorem assocDel_assocDel_self {α β : Type} [DecidableEq α] (l : List (α × β)) (k : α) :
    assocDel (assocDel l k) k = assocDel l k := by
  induction l with
  | nil => simp [assocDel]
  | cons p t ih =>
    obtain ⟨k0, v0⟩ := p
    by_cases h0 : k0 = k
    · simp [assocDel, h0, ih]
    · simp [assocDel, h0, ih]

theorem assocSet_assocSet_self {α β : Type} [DecidableEq α] (l : List (α × β)) (k : α) (v w : β) :
    assocSet (assocSet l k v) k w = assocSet l k w := by
  induction l with
  | nil => simp [assocSet]
  | cons p t ih =>
    obtain ⟨k0, v0⟩ := p
    by_cases h0 : k0 = k
    · simp [assocSet, h0]
    · simp [assocSet, h0, ih]

theorem length_assocSet_of_none {α β : Type} [DecidableEq α] (l : List (α × β)) (k : α) (v : β)
    (h : assocGet l k = none) : (assocSet l k v).length = l.length + 1 := by
  induction l with
  | nil => simp [assocSet]
  | cons p t ih =>
    obtain ⟨k0, v0⟩ := p
    by_cases h0 : k0 = k
    · simp [assocGet, h0] at h
    · simp only [assocGet, if_neg h0] at h
      simp [assocSet, h0, ih h]

theorem length_assocSet_of_some {α β : Type} [DecidableEq α] (l : List (α × β)) (k : α) (v w : β)
    (h : assocGet l k = some w) : (assocSet l k v).length = l.length := by
  induction l with
  | nil => simp [assocGet] at h
  | cons p t ih =>
    obtain ⟨k0, v0⟩ := p
    by_cases h0 : k0 = k
    · simp [assocSet, h0]
    · simp only [assocGet, if_neg h0] at h
      simp [assocSet, h0, ih h]

/-! ## Component lemmas for the state operations -/

theorem gatewaySend_conns (st : GatewayState) (m : ImMessage) :
    (gatewaySend st m).conns = st.conns := by
  rcases st with ⟨c, cs, gs, sb, ev⟩
  cases gs <;> rfl

theorem gatewaySend_connStates (st : GatewayState) (m : ImMessage) :
    (gatewaySend st m).connStates = st.connStates := by
  rcases st with ⟨c, cs, gs, sb, ev⟩
  cases gs <;> rfl

theorem gatewaySend_stream (st : GatewayState) (m : ImMessage) :
    (gatewaySend st m).gatewayStream = st.gatewayStream := by
  rcases st with ⟨c, cs, gs, sb, ev⟩
  cases gs <;> rfl

theorem gatewaySend_sentToBus_of_none (st : GatewayState) (m : ImMessage)
    (h : st.gatewayStream = none) : (gatewaySend st m).sentToBus = st.sentToBus := by
  simp [gatewaySend, h]

theorem gatewaySend_sentToBus_of_some (st : GatewayState) (m : ImMessage) (g : Nat)
    (h : st.gatewayStream = some g) : (gatewaySend st m).sentToBus = st.sentToBus ++ [m] := by
  simp [gatewaySend, h]

theorem gatewaySend_events_of_none (st : GatewayState) (m : ImMessage)
    (h : st.gatewayStream = none) : (gatewaySend st m).events = st.events ++ [GwEvent.busDrop m] := by
  simp [gatewaySend, h]

theorem gatewaySend_events_of_some (st : GatewayState) (m : ImMessage) (g : Nat)
    (h : st.gatewayStream = some g) : (gatewaySend st m).events = st.events ++ [GwEvent.busSend m] := by
  simp [gatewaySend, h]

theorem gatewaySend_events_mono (st : GatewayState) (m : ImMessage) :
    ∃ d, (gatewaySend st m).events = st.events ++ d := by
  rcases h : st.gatewayStream with _ | g
  · exact ⟨_, gatewaySend_events_of_none st m h⟩
  · exact ⟨_, gatewaySend_events_of_some st m g h⟩

theorem getConn_connClose_self (st : GatewayState) (cid : Nat) :
    getConn (connClose st cid) cid = { getConn st cid with closed := true } := by
  simp [connClose, getConn, assocGet_assocSet_self]

theorem getConn_gatewaySend (st : GatewayState) (m : ImMessage) (cid : Nat) :
    getConn (gatewaySend st m) cid = getConn st cid := by
  simp [getConn, gatewaySend_connStates]

/-! ## Counting `session_close` envelopes -/

theorem countClose_append (sid : String) (l1 l2 : List ImMessage) :
    countClose sid (l1 ++ l2) = countClose sid l1 + countClose sid l2 := by
  simp [countClose, List.filter_append]

theorem countClose_closeMsg_self (sid : String) : countClose sid [closeMsg sid] = 1 := by
  simp [countClose, closeMsg, List.filter_cons]

theorem countClose_singleton_of_ne_event (sid : String) (m : ImMessage)
    (h : m.event ≠ EventType.session_close) : countClose sid [m] = 0 := by
  simp [countClose, List.filter_cons, h]

/-! ## The client read loop -/

theorem sendDataFrame_countClose (sid sid2 : String) (st : GatewayState) (f : Int × List Nat) :
    countClose sid2 (sendDataFrame sid st f).sentToBus = countClose sid2 st.sentToBus := by
  unfold sendDataFrame
  rcases h : st.gatewayStream with _ | g
  · rw [gatewaySend_sentToBus_of_none _ _ h]
  · rw [gatewaySend_sentToBus_of_some _ _ g h, countClose_append,
      countClose_singleton_of_ne_event _ _ (by simp)]
    simp

theorem foldl_sendDataFrame_spec (sid : String) (frames : List (Int × List Nat)) :
    ∀ st : GatewayState,
      (frames.foldl (sendDataFrame sid) st).conns = st.conns ∧
      (frames.foldl (sendDataFrame sid) st).connStates = st.connStates ∧
      (frames.foldl (sendDataFrame sid) st).gatewayStream = st.gatewayStream ∧
      ∀ sid2, countClose sid2 (frames.foldl (sendDataFrame sid) st).sentToBus =
        countClose sid2 st.sentToBus := by
  induction frames with
  | nil => intro st; simp
  | cons f t ih =>
    intro st
    obtain ⟨h1, h2, h3, h4⟩ := ih (sendDataFrame sid st f)
    refine ⟨?_, ?_, ?_, ?_⟩
    · rw [List.foldl_cons, h1]; exact gatewaySend_conns _ _
    · rw [List.foldl_cons, h2]; exact gatewaySend_connStates _ _
    · rw [List.foldl_cons, h3]; exact gatewaySend_stream _ _
    · intro sid2
      rw [List.foldl_cons, h4 sid2, sendDataFrame_countClose]

theorem foldl_sendDataFrame_events_mono (sid : String) (frames : List (Int × List Nat)) :
    ∀ st : GatewayState, ∃ d, (frames.foldl (sendDataFrame sid) st).events = st.events ++ d := by
  induction frames with
  | nil => intro st; exact ⟨[], by simp⟩
  | cons f t ih =>
    intro st
    obtain ⟨d1, hd1⟩ := ih (sendDataFrame sid st f)
    obtain ⟨d0, hd0⟩ := gatewaySend_events_mono st
      { event := EventType.data, sessionID := sid, headers := [],
        messageType := f.1, payload := f.2 }
    exact ⟨d0 ++ d1, by rw [List.foldl_cons, hd1, sendDataFrame, hd0, List.append_assoc]⟩

/-! ## Teardown -/

theorem sessionTeardown_conns (sid : String) (cid : Nat) (st : GatewayState) :
    (sessionTeardown sid cid st).conns = assocDel st.conns sid := by
  simp [sessionTeardown, connClose, gatewaySend_conns, connsDelete]

theorem sessionTeardown_stream (sid : String) (cid : Nat) (st : GatewayState) :
    (sessionTeardown sid cid st).gatewayStream = st.gatewayStream := by
  simp [sessionTeardown, connClose, gatewaySend_stream, connsDelete]

theorem sessionTeardown_connStates (sid : String) (cid : Nat) (st : GatewayState) :
    (sessionTeardown sid cid st).connStates =
      assocSet st.connStates cid { getConn st cid with closed := true } := by
  have h1 : (gatewaySend (connsDelete st sid) (closeMsg sid)).connStates = st.connStates := by
    rw [gatewaySend_connStates]; rfl
  simp [sessionTeardown, connClose, getConn, h1]

theorem sessionTeardown_closed (sid : String) (cid : Nat) (st : GatewayState) :
    (getConn (sessionTeardown sid cid st) cid).closed = true := by
  simp [getConn, sessionTeardown_connStates, assocGet_assocSet_self]

theorem sessionTeardown_countClose (sid : String) (cid : Nat) (st : GatewayState) (g : Nat)
    (h : st.gatewayStream = some g) :
    countClose sid (sessionTeardown sid cid st).sentToBus = countClose sid st.sentToBus + 1 := by
  have hs : (connsDelete st sid).gatewayStream = some g := h
  have : (sessionTeardown sid cid st).sentToBus = st.sentToBus ++ [closeMsg sid] := by
    simp [sessionTeardown, connClose]
    rw [gatewaySend_sentToBus_of_some _ _ g hs]
    rfl
  rw [this, countClose_append, countClose_closeMsg_self]

theorem sessionTeardown_sentToBus_of_none (sid : String) (cid : Nat) (st : GatewayState)
    (h : st.gatewayStream = none) :
    (sessionTeardown sid cid st).sentToBus = st.sentToBus := by
  have hs : (connsDelete st sid).gatewayStream = none := h
  simp [sessionTeardown, connClose]
  rw [gatewaySend_sentToBus_of_none _ _ hs]
  rfl

/-! ## The bounded bus wait -/

theorem waitLoop_iff (connAt : Nat → Bool) (d i : Nat) :
    ∀ (fuel t : Nat), d ≤ t + fuel * i →
      (waitLoop connAt d i t fuel = true ↔ ∃ k, t + k * i < d ∧ connAt (t + k * i) = true) := by
  intro fuel
  induction fuel with
  | zero =>
    intro t h
    refine iff_of_false (by simp [waitLoop]) ?_
    rintro ⟨k, hk, _⟩
    have := Nat.le_add_right t (k * i)
    omega
  | succ f ih =>
    intro t h
    rw [waitLoop]
    by_cases ht : t < d
    · rw [if_pos ht]
      by_cases hc : connAt t = true
      · refine iff_of_true (by simp [hc]) ⟨0, ?_, ?_⟩
        · simpa using ht
        · simpa using hc
      · have hc' : connAt t = false := by simpa using hc
        have hle : d ≤ (t + i) + f * i := by
          have he : (t + i) + f * i = t + (f + 1) * i := by ring
          rw [he]; exact h
        simp only [hc', Bool.false_eq_true, if_false]
        rw [ih (t + i) hle]
        constructor
        · rintro ⟨k, h1, h2⟩
          have he : (t + i) + k * i = t + (k + 1) * i := by ring
          rw [he] at h1 h2
          exact ⟨k + 1, h1, h2⟩
        · rintro ⟨k, h1, h2⟩
          cases k with
          | zero =>
            rw [Nat.zero_mul, Nat.add_zero] at h2
            rw [hc'] at h2
            cases h2
          | succ k' =>
            have he : t + (k' + 1) * i = (t + i) + k' * i := by ring
            rw [he] at h1 h2
            exact ⟨k', h1, h2⟩
    · rw [if_neg ht]
      refine iff_of_false (by simp) ?_
      rintro ⟨k, hk, _⟩
      have := Nat.le_add_right t (k * i)
      omega

theorem waitGatewayConnected_iff_exists (connAt : Nat → Bool) :
    waitGatewayConnected connAt 2000 100 = true ↔
      ∃ k, k < 20 ∧ connAt (100 * k) = true := by
  have e : waitGatewayConnected connAt 2000 100 = waitLoop connAt 2000 100 0 21 := rfl
  rw [e, waitLoop_iff connAt 2000 100 21 0 (by norm_num)]
  constructor
  · rintro ⟨k, h1, h2⟩
    refine ⟨k, by omega, ?_⟩
    have he : 100 * k = 0 + k * 100 := by ring
    rw [he]; exact h2
  · rintro ⟨k, h1, h2⟩
    refine ⟨k, by omega, ?_⟩
    have he : 0 + k * 100 = 100 * k := by ring
    rw [he]; exact h2

/-! ## The bus receive loop never clears the stream reference -/

theorem forwardToClient_stream (st : GatewayState) (m : ImMessage) :
    (forwardToClient st m).gatewayStream = st.gatewayStream := by
  unfold forwardToClient
  by_cases h : m.sessionID = ""
  · simp [h]
  · rcases hl : assocGet st.conns m.sessionID with _ | cid
    · simp [h, hl]
    · by_cases he : m.event = EventType.session_close
      · simp [h, hl, he, connsDelete, connClose]
      · simp [h, hl, he, connWrite]

theorem foldl_forwardToClient_stream (msgs : List ImMessage) :
    ∀ st : GatewayState, (msgs.foldl forwardToClient st).gatewayStream = st.gatewayStream := by
  induction msgs with
  | nil => intro st; rfl
  | cons m t ih =>
    intro st
    rw [List.foldl_cons, ih (forwardToClient st m), forwardToClient_stream]

/-! ## Claims -/

/-- C1: the claim states that after the bus receive loop returns — on
graceful EOF (`endErr = false`) as well as on a non-EOF read error
(`endErr = true`) — bus connectivity is cleared, i.e. `IsGatewayConnected`
is false until a new stream is accepted.  The code never resets
`gatewayStream` when `messageGatewayHandler` returns, so connectivity
remains true: at the concrete EOF run and the concrete error run below, and
in fact after every run of the handler whatsoever. -/
theorem C1_connectivity_retained_after_bus_loop :
    IsGatewayConnected (messageGatewayHandler 0 [] false initialState).1 = true ∧
    IsGatewayConnected (messageGatewayHandler 0 [] true initialState).1 = true ∧
    ∀ (streamId : Nat) (msgs : List ImMessage) (endErr : Bool) (st : GatewayState),
      IsGatewayConnected (messageGatewayHandler streamId msgs endErr st).1 = true := by
  refine ⟨rfl, rfl, ?_⟩
  intro streamId msgs endErr st
  simp [IsGatewayConnected, messageGatewayHandler, foldl_forwardToClient_stream]

/-- C9: a bus envelope whose session id is empty, or is non-empty but not
present in the registry, is dropped as a complete no-op: the gateway state
(registry, every connection's state, bus stream, sent envelopes) is
unchanged. -/
theorem C9_unknown_session_noop (st : GatewayState) (msg : ImMessage)
    (h : msg.sessionID = "" ∨ assocGet st.conns msg.sessionID = none) :
    forwardToClient st msg = st := by
  unfold forwardToClient
  rcases h with h | h
  · simp [h]
  · by_cases h0 : msg.sessionID = ""
    · simp [h0]
    · simp [h0, h]

/-- Witness for C9: a `data` envelope for the unknown session `sX` leaves a
state that has a live session `s1` completely unchanged. -/
theorem C9_unknown_session_noop_witness :
    ((⟨EventType.data, "sX", [], 1, [1, 2]⟩ : ImMessage).sessionID = "" ∨
      assocGet stBusW.conns (⟨EventType.data, "sX", [], 1, [1, 2]⟩ : ImMessage).sessionID = none) ∧
    forwardToClient stBusW ⟨EventType.data, "sX", [], 1, [1, 2]⟩ = stBusW :=
  ⟨Or.inr (by decide), C9_unknown_session_noop stBusW _ (Or.inr (by decide))⟩

/-- C5: `VerifyToken` rejects a correctly-signed HS256 token whose `exp` is
in the past when called without the skip flag, and accepts that same token —
returning its device id and numeric user id — when the skip-expiry flag is
passed (the parser restricted to HS256 still reports the expiry error, but
with the flag set the error is tolerated as long as a token object exists,
and the `Valid` check is skipped). -/
theorem C5_expiry_enforcement (tok : JwtToken) (now e : Int) (d : String) (uid : Int)
    (hwf : tok.wellFormed = true) (hhm : tok.algHmac = true) (hh256 : tok.algHS256 = true)
    (hsig : tok.sigOk = true) (hexp : claimNum tok.claims "exp" = some e) (hlt : e < now)
    (hdev : claimStr tok.claims "device_id" = some d)
    (huid : claimNum tok.claims "user_id" = some uid) :
    VerifyToken false false tok now [] = (false, "", 0, true) ∧
    VerifyToken false false tok now [true] = (true, d, uid.toNat, false) := by
  have hexpd : expiredAt tok now = true := by simp [expiredAt, hexp, hlt]
  constructor
  · simp [VerifyToken, jwtParse, hwf, hhm, hh256, hsig, hexpd]
  · simp [VerifyToken, jwtParse, hwf, hhm, hh256, hsig, hexpd, hdev, huid]

/-- Witness for C5: the concrete `dev-1` token with `exp = 100` at time 200. -/
theorem C5_expiry_enforcement_witness :
    (tokW.wellFormed = true ∧ tokW.algHmac = true ∧ tokW.algHS256 = true ∧
      tokW.sigOk = true ∧ claimNum tokW.claims "exp" = some 100 ∧ (100 : Int) < 200 ∧
      claimStr tokW.claims "device_id" = some "dev-1" ∧
      claimNum tokW.claims "user_id" = some 7) ∧
    VerifyToken false false tokW 200 [] = (false, "", 0, true) ∧
    VerifyToken false false tokW 200 [true] = (true, "dev-1", 7, false) :=
  ⟨⟨by decide, by decide, by decide, by decide, by decide, by decide, by decide, by decide⟩,
    C5_expiry_enforcement tokW 200 100 "dev-1" 7 (by decide) (by decide) (by decide)
      (by decide) (by decide) (by decide) (by decide) (by decide)⟩

/-- C6: whenever the admission check fails — missing or non-Bearer
authorization header, signature failure, expired token, malformed claims,
or device-id mismatch all make `verifyJWTAuth` return `none` — the request
is rejected as unauthorized (401) and the returned state is exactly the
input state: no upgrade is attempted, no connection is created, no session
is registered, the registry is unchanged. -/
theorem C6_reject_before_upgrade (env : HwEnv) (st : GatewayState) (r : Request)
    (h : verifyJWTAuth env.decode env.now (if env.browser then browserTranslate r else r) = none) :
    HandleWebSocket env st r = (WsResult.unauthorized, st) := by
  simp only [HandleWebSocket, h]

/-- Witness for C6: a request without an Authorization header against a
state with one live session. -/
theorem C6_reject_before_upgrade_witness :
    verifyJWTAuth envW.decode envW.now
      (if envW.browser then browserTranslate rNoAuthW else rNoAuthW) = none ∧
    HandleWebSocket envW stBusW rNoAuthW = (WsResult.unauthorized, stBusW) :=
  ⟨by decide, C6_reject_before_upgrade envW stBusW rNoAuthW (by decide)⟩

/-! ## Further helper lemmas (headers, drops, teardown, admitted path) -/

theorem headerGet_headerSet_self (hs : List (String × String)) (k v : String) :
    headerGet (headerSet hs k v) k = v := by
  simp [headerGet, headerSet, assocGet_assocSet_self]

theorem headerGet_headerSet_ne (hs : List (String × String)) (k k' v : String) (h : k' ≠ k) :
    headerGet (headerSet hs k v) k' = headerGet hs k' := by
  simp [headerGet, headerSet, assocGet_assocSet_ne _ _ _ _ h]

theorem forwardToClient_drop (st : GatewayState) (msg : ImMessage)
    (h : msg.sessionID = "" ∨ assocGet st.conns msg.sessionID = none) :
    forwardToClient st msg = st := by
  unfold forwardToClient
  rcases h with h | h
  · simp [h]
  · by_cases h0 : msg.sessionID = ""
    · simp [h0]
    · simp [h0, h]

theorem sessionTeardown_sentToBus_of_some (sid : String) (cid : Nat) (st : GatewayState) (g : Nat)
    (h : st.gatewayStream = some g) :
    (sessionTeardown sid cid st).sentToBus = st.sentToBus ++ [closeMsg sid] := by
  have hs : (connsDelete st sid).gatewayStream = some g := h
  simp [sessionTeardown, connClose]
  rw [gatewaySend_sentToBus_of_some _ _ g hs]
  rfl

theorem HandleWebSocket_admitted (env : HwEnv) (st : GatewayState) (r : Request) (uid : Nat)
    (hb : env.browser = false)
    (hauth : verifyJWTAuth env.decode env.now r = some uid)
    (hw : waitGatewayConnected env.busConnAt 2000 100 = true)
    (hup : env.upgradeOk = true) :
    HandleWebSocket env st r =
      (WsResult.sessionStarted (sidOf env r uid) env.newConnId,
        gatewaySend
          (connsStore
            { st with connStates :=
                assocSet st.connStates env.newConnId { closed := false, writes := [] } }
            (sidOf env r uid) env.newConnId)
          (openMsgOf env r uid)) := by
  have hr : (if env.browser then browserTranslate r else r) = r := by simp [hb]
  simp only [HandleWebSocket, hr, hauth, hw, hup, Bool.not_true, Bool.false_eq_true,
    if_false, sidOf, openMsgOf]

theorem VerifyToken_ok (tok : JwtToken) (now : Int) (d : String) (uid : Int)
    (hwf : tok.wellFormed = true) (hhm : tok.algHmac = true) (hsig : tok.sigOk = true)
    (hexpd : expiredAt tok now = false)
    (hdevc : claimStr tok.claims "device_id" = some d)
    (huidc : claimNum tok.claims "user_id" = some uid) :
    VerifyToken false false tok now [] = (true, d, uid.toNat, false) := by
  simp [VerifyToken, jwtParse, hwf, hhm, hsig, hexpd, hdevc, huidc]

theorem verifyJWTAuth_eq (decode : String → JwtToken) (now : Int) (r : Request)
    (hpre : (headerGet r.headers "Authorization").toList.take 7 = "Bearer ".toList) :
    verifyJWTAuth decode now r =
      (match VerifyToken false false
          (decode (((headerGet r.headers "Authorization").toList.drop 7).asString)) now [] with
       | (isValid, deviceID, userID, err) =>
         if err || !isValid then none
         else if headerGet r.headers "Device-Id" ≠ deviceID then none
         else some userID) := by
  simp only [verifyJWTAuth]
  rw [if_pos hpre]

/-- C4: admission binds the token to the requesting device.  For a fixed
request metadata with `Device-Id` header `d`, and two otherwise-valid tokens
that differ only in their `device_id` claim (`d` versus `d2 ≠ d`), the
request carrying the matching token passes `verifyJWTAuth` with the token's
numeric user id, and the request carrying the mismatched token is rejected
with an authentication error. -/
theorem C4_device_id_binding (decode : String → JwtToken) (now : Int)
    (r1 r2 : Request) (tok : JwtToken) (claims2 : List (String × ClaimVal))
    (d d2 : String) (uid e : Int)
    (hdev1 : headerGet r1.headers "Device-Id" = d)
    (hdev2 : headerGet r2.headers "Device-Id" = d)
    (hpre1 : (headerGet r1.headers "Authorization").toList.take 7 = "Bearer ".toList)
    (hpre2 : (headerGet r2.headers "Authorization").toList.take 7 = "Bearer ".toList)
    (hd1 : decode (((headerGet r1.headers "Authorization").toList.drop 7).asString) = tok)
    (hd2 : decode (((headerGet r2.headers "Authorization").toList.drop 7).asString) =
      { tok with claims := claims2 })
    (hwf : tok.wellFormed = true) (hhm : tok.algHmac = true) (hsig : tok.sigOk = true)
    (hexp : claimNum tok.claims "exp" = some e) (hnow : ¬ e < now)
    (hdevc : claimStr tok.claims "device_id" = some d)
    (huidc : claimNum tok.claims "user_id" = some uid)
    (hdevc2 : claimStr claims2 "device_id" = some d2)
    (huidc2 : claimNum claims2 "user_id" = some uid)
    (hexp2 : claimNum claims2 "exp" = some e)
    (hne : d2 ≠ d) :
    verifyJWTAuth decode now r1 = some uid.toNat ∧
    verifyJWTAuth decode now r2 = none := by
  have hexpd : expiredAt tok now = false := by simp [expiredAt, hexp, hnow]
  have hexpd2 : expiredAt { tok with claims := claims2 } now = false := by
    simp [expiredAt, hexp2, hnow]
  constructor
  · rw [verifyJWTAuth_eq decode now r1 hpre1, hd1,
      VerifyToken_ok tok now d uid hwf hhm hsig hexpd hdevc huidc]
    simp [hdev1]
  · rw [verifyJWTAuth_eq decode now r2 hpre2, hd2,
      VerifyToken_ok { tok with claims := claims2 } now d2 uid hwf hhm hsig hexpd2 hdevc2 huidc2]
    simp [hdev2, Ne.symm hne]

/-- Witness for C4: `rGoodW` (token bound to `dev-1`) is admitted as user 7,
`rOtherDevW` (same request, token bound to `dev-2`) is rejected. -/
theorem C4_device_id_binding_witness :
    (headerGet rGoodW.headers "Device-Id" = "dev-1" ∧
      headerGet rOtherDevW.headers "Device-Id" = "dev-1" ∧
      (headerGet rGoodW.headers "Authorization").toList.take 7 = "Bearer ".toList ∧
      (headerGet rOtherDevW.headers "Authorization").toList.take 7 = "Bearer ".toList ∧
      decodeW (((headerGet rGoodW.headers "Authorization").toList.drop 7).asString) = tokW ∧
      decodeW (((headerGet rOtherDevW.headers "Authorization").toList.drop 7).asString) =
        { tokW with claims := tokOtherDevW.claims } ∧
      claimStr tokW.claims "device_id" = some "dev-1" ∧
      claimStr tokOtherDevW.claims "device_id" = some "dev-2" ∧
      ¬ (100 : Int) < 50 ∧ ("dev-2" : String) ≠ "dev-1") ∧
    verifyJWTAuth decodeW 50 rGoodW = some ((7 : Int)).toNat ∧
    verifyJWTAuth decodeW 50 rOtherDevW = none :=
  ⟨by decide,
    C4_device_id_binding decodeW 50 rGoodW rOtherDevW tokW tokOtherDevW.claims
      "dev-1" "dev-2" 7 100 (by decide) (by decide) (by decide) (by decide) (by decide)
      (by decide) (by decide) (by decide) (by decide) (by decide) (by decide) (by decide)
      (by decide) (by decide) (by decide) (by decide) (by decide)⟩

/-- C2: when the per-session read loop of an admitted session exits (after
any sequence of successfully forwarded frames), the single deferred teardown
runs: afterwards the session id is absent from the registry, exactly one
`session_close` envelope carrying that session id was added to the upstream
stream (the bus being connected), and the client connection is closed. -/
theorem C2_client_teardown (st : GatewayState) (sid : String) (cid : Nat)
    (frames : List (Int × List Nat)) (g : Nat) (hg : st.gatewayStream = some g) :
    assocGet (runClientLoop sid cid frames st).conns sid = none ∧
    countClose sid (runClientLoop sid cid frames st).sentToBus =
      countClose sid st.sentToBus + 1 ∧
    (getConn (runClientLoop sid cid frames st) cid).closed = true := by
  obtain ⟨h1, h2, h3, h4⟩ := foldl_sendDataFrame_spec sid frames st
  unfold runClientLoop
  refine ⟨?_, ?_, ?_⟩
  · rw [sessionTeardown_conns, h1, assocGet_assocDel_self]
  · rw [sessionTeardown_countClose sid cid _ g (by rw [h3]; exact hg), h4]
  · exact sessionTeardown_closed sid cid _

/-- Witness for C2: session `s1` on connection 1 forwards one frame and
closes, in the state `stBusW` whose bus stream is accepted. -/
theorem C2_client_teardown_witness :
    stBusW.gatewayStream = some 0 ∧
    (assocGet (runClientLoop "s1" 1 [(1, [7])] stBusW).conns "s1" = none ∧
      countClose "s1" (runClientLoop "s1" 1 [(1, [7])] stBusW).sentToBus =
        countClose "s1" stBusW.sentToBus + 1 ∧
      (getConn (runClientLoop "s1" 1 [(1, [7])] stBusW) 1).closed = true) :=
  ⟨rfl, C2_client_teardown stBusW "s1" 1 [(1, [7])] 0 rfl⟩

/-- C3: teardown is idempotent under the race between the bus-side closer
and the client-side closer.  For a registered session, the bus-initiated
`session_close` closes the client connection and deletes the registry entry;
running the two closers in either order yields the same terminal registry,
connection states, upstream envelopes and bus stream; the terminal state has
the session id absent and the connection closed; and the bus dispatcher
acting second finds the entry absent and no-ops (returns the state
unchanged). -/
theorem C3_teardown_race_idempotent (st : GatewayState) (sid : String) (cid : Nat)
    (hne : sid ≠ "") (hc : assocGet st.conns sid = some cid) :
    ((sessionTeardown sid cid (forwardToClient st (closeMsg sid))).conns =
        (forwardToClient (sessionTeardown sid cid st) (closeMsg sid)).conns ∧
      (sessionTeardown sid cid (forwardToClient st (closeMsg sid))).connStates =
        (forwardToClient (sessionTeardown sid cid st) (closeMsg sid)).connStates ∧
      (sessionTeardown sid cid (forwardToClient st (closeMsg sid))).sentToBus =
        (forwardToClient (sessionTeardown sid cid st) (closeMsg sid)).sentToBus ∧
      (sessionTeardown sid cid (forwardToClient st (closeMsg sid))).gatewayStream =
        (forwardToClient (sessionTeardown sid cid st) (closeMsg sid)).gatewayStream) ∧
    (getConn (forwardToClient st (closeMsg sid)) cid).closed = true ∧
    assocGet (forwardToClient st (closeMsg sid)).conns sid = none ∧
    assocGet (sessionTeardown sid cid (forwardToClient st (closeMsg sid))).conns sid = none ∧
    (getConn (sessionTeardown sid cid (forwardToClient st (closeMsg sid))) cid).closed = true ∧
    forwardToClient (sessionTeardown sid cid st) (closeMsg sid) = sessionTeardown sid cid st := by
  have hF : forwardToClient st (closeMsg sid) = connsDelete (connClose st cid) sid := by
    unfold forwardToClient
    simp [closeMsg, hne, hc]
  have hT : forwardToClient (sessionTeardown sid cid st) (closeMsg sid) =
      sessionTeardown sid cid st := by
    apply forwardToClient_drop
    right
    simp [closeMsg, sessionTeardown_conns, assocGet_assocDel_self]
  refine ⟨⟨?_, ?_, ?_, ?_⟩, ?_, ?_, ?_, ?_, hT⟩
  · rw [hT, hF, sessionTeardown_conns, sessionTeardown_conns]
    simp only [connsDelete, connClose]
    exact assocDel_assocDel_self _ _
  · rw [hT, hF, sessionTeardown_connStates, sessionTeardown_connStates]
    simp [connsDelete, connClose, getConn, assocGet_assocSet_self, assocSet_assocSet_self]
  · rw [hT, hF]
    rcases hstream : st.gatewayStream with _ | g
    · rw [sessionTeardown_sentToBus_of_none _ _ _
        (show (connsDelete (connClose st cid) sid).gatewayStream = none from hstream),
        sessionTeardown_sentToBus_of_none _ _ _ hstream]
      rfl
    · rw [sessionTeardown_sentToBus_of_some _ _ _ g
        (show (connsDelete (connClose st cid) sid).gatewayStream = some g from hstream),
        sessionTeardown_sentToBus_of_some _ _ _ g hstream]
      rfl
  · rw [hT, hF, sessionTeardown_stream, sessionTeardown_stream]
    rfl
  · rw [hF]
    simp [connsDelete, connClose, getConn, assocGet_assocSet_self]
  · rw [hF]
    simp only [connsDelete, connClose]
    exact assocGet_assocDel_self _ _
  · rw [hF, sessionTeardown_conns]
    simp only [connsDelete, connClose]
    rw [assocDel_assocDel_self]
    exact assocGet_assocDel_self _ _
  · rw [hF]
    exact sessionTeardown_closed _ _ _

/-- Witness for C3: the registered session `s1` on connection 1 in `stBusW`. -/
theorem C3_teardown_race_idempotent_witness :
    (("s1" : String) ≠ "" ∧ assocGet stBusW.conns "s1" = some 1) ∧
    (((sessionTeardown "s1" 1 (forwardToClient stBusW (closeMsg "s1"))).conns =
        (forwardToClient (sessionTeardown "s1" 1 stBusW) (closeMsg "s1")).conns ∧
      (sessionTeardown "s1" 1 (forwardToClient stBusW (closeMsg "s1"))).connStates =
        (forwardToClient (sessionTeardown "s1" 1 stBusW) (closeMsg "s1")).connStates ∧
      (sessionTeardown "s1" 1 (forwardToClient stBusW (closeMsg "s1"))).sentToBus =
        (forwardToClient (sessionTeardown "s1" 1 stBusW) (closeMsg "s1")).sentToBus ∧
      (sessionTeardown "s1" 1 (forwardToClient stBusW (closeMsg "s1"))).gatewayStream =
        (forwardToClient (sessionTeardown "s1" 1 stBusW) (closeMsg "s1")).gatewayStream) ∧
    (getConn (forwardToClient stBusW (closeMsg "s1")) 1).closed = true ∧
    assocGet (forwardToClient stBusW (closeMsg "s1")).conns "s1" = none ∧
    assocGet (sessionTeardown "s1" 1 (forwardToClient stBusW (closeMsg "s1"))).conns "s1" = none ∧
    (getConn (sessionTeardown "s1" 1 (forwardToClient stBusW (closeMsg "s1"))) 1).closed = true ∧
    forwardToClient (sessionTeardown "s1" 1 stBusW) (closeMsg "s1") =
      sessionTeardown "s1" 1 stBusW) :=
  ⟨⟨by decide, by decide⟩, C3_teardown_race_idempotent stBusW "s1" 1 (by decide) (by decide)⟩

/-- C7: for an authenticated request, the bounded wait returns true exactly
when some poll within the 2-second window (polled every 100 ms, i.e. polls
at 100k ms for k < 20) observes bus connectivity; if no poll observes
connectivity the request is rejected as service-unavailable (503) with the
state unchanged (no session created), and if some poll does, admission
proceeds to the upgrade (the outcome is the upgrade failing or a session
starting, never an unavailability or authorization rejection). -/
theorem C7_bus_wait_window (env : HwEnv) (st : GatewayState) (r : Request) (uid : Nat)
    (hauth : verifyJWTAuth env.decode env.now
      (if env.browser then browserTranslate r else r) = some uid) :
    (waitGatewayConnected env.busConnAt 2000 100 = true ↔
      ∃ k, k < 20 ∧ env.busConnAt (100 * k) = true) ∧
    (waitGatewayConnected env.busConnAt 2000 100 = false →
      HandleWebSocket env st r = (WsResult.unavailable, st)) ∧
    (waitGatewayConnected env.busConnAt 2000 100 = true →
      (HandleWebSocket env st r).1 = WsResult.upgradeFailed ∨
      ∃ sid cid, (HandleWebSocket env st r).1 = WsResult.sessionStarted sid cid) := by
  refine ⟨waitGatewayConnected_iff_exists env.busConnAt, ?_, ?_⟩
  · intro hw
    simp only [HandleWebSocket, hauth, hw, Bool.not_false, if_true]
  · intro hw
    by_cases hup : env.upgradeOk = true
    · right
      simp only [HandleWebSocket, hauth, hw, hup, Bool.not_true, Bool.false_eq_true, if_false]
      exact ⟨_, _, rfl⟩
    · left
      have hup' : env.upgradeOk = false := by
        cases h : env.upgradeOk
        · rfl
        · exact absurd h hup
      simp only [HandleWebSocket, hauth, hw, hup', Bool.not_true, Bool.not_false,
        Bool.false_eq_true, if_false, if_true]

/-- Witness for C7: the authenticated request `rGoodW` under `envDownW`,
whose polls never observe connectivity. -/
theorem C7_bus_wait_window_witness :
    verifyJWTAuth envDownW.decode envDownW.now
      (if envDownW.browser then browserTranslate rGoodW else rGoodW) = some 7 ∧
    ((waitGatewayConnected envDownW.busConnAt 2000 100 = true ↔
        ∃ k, k < 20 ∧ envDownW.busConnAt (100 * k) = true) ∧
      (waitGatewayConnected envDownW.busConnAt 2000 100 = false →
        HandleWebSocket envDownW initialState rGoodW = (WsResult.unavailable, initialState)) ∧
      (waitGatewayConnected envDownW.busConnAt 2000 100 = true →
        (HandleWebSocket envDownW initialState rGoodW).1 = WsResult.upgradeFailed ∨
        ∃ sid cid, (HandleWebSocket envDownW initialState rGoodW).1 =
          WsResult.sessionStarted sid cid)) :=
  ⟨by decide, C7_bus_wait_window envDownW initialState rGoodW 7 (by decide)⟩

theorem connClose_events (st : GatewayState) (cid : Nat) :
    (connClose st cid).events = st.events ++ [GwEvent.clientClose cid] := rfl

theorem connsDelete_events (st : GatewayState) (sid : String) :
    (connsDelete st sid).events = st.events ++ [GwEvent.deleteSession sid] := rfl

theorem sessionTeardown_events_mono (sid : String) (cid : Nat) (st : GatewayState) :
    ∃ d, (sessionTeardown sid cid st).events = st.events ++ d := by
  obtain ⟨d0, hd0⟩ := gatewaySend_events_mono (connsDelete st sid) (closeMsg sid)
  refine ⟨[GwEvent.deleteSession sid] ++ d0 ++ [GwEvent.clientClose cid], ?_⟩
  rw [sessionTeardown, connClose_events, hd0, connsDelete_events]
  simp

theorem runClientLoop_events_mono (sid : String) (cid : Nat)
    (frames : List (Int × List Nat)) (st : GatewayState) :
    ∃ d, (runClientLoop sid cid frames st).events = st.events ++ d := by
  obtain ⟨d1, h1⟩ := foldl_sendDataFrame_events_mono sid frames st
  obtain ⟨d2, h2⟩ := sessionTeardown_events_mono sid cid (frames.foldl (sendDataFrame sid) st)
  exact ⟨d1 ++ d2, by rw [runClientLoop, h2, h1, List.append_assoc]⟩

/-- C8 counterexample: the claim orders the per-session flow as "first emit
the `session_open` envelope, then register the session".  At the concrete
admitted connection below the event trace is
`[storeSession "s1", busSend openMsgW]`: the registration strictly precedes
the `session_open` emission, so no index of a `session_open` bus send comes
before an index of the registration — the claimed order is false. -/
theorem C8_emit_before_register_counterexample :
    (HandleWebSocket envW stBusEmptyW rGoodW).2.events =
      [GwEvent.storeSession "s1", GwEvent.busSend openMsgW] ∧
    ¬ (∃ i j : Nat, i < j ∧
        (∃ m : ImMessage,
          ((HandleWebSocket envW stBusEmptyW rGoodW).2.events).get? i =
            some (GwEvent.busSend m) ∧
          m.event = EventType.session_open ∧ m.sessionID = "s1") ∧
        ((HandleWebSocket envW stBusEmptyW rGoodW).2.events).get? j =
          some (GwEvent.storeSession "s1")) := by
  have e : (HandleWebSocket envW stBusEmptyW rGoodW).2.events =
      [GwEvent.storeSession "s1", GwEvent.busSend openMsgW] := by decide
  refine ⟨e, ?_⟩
  rintro ⟨i, j, hij, ⟨m, hi, hm1, hm2⟩, hj⟩
  rw [e] at hi hj
  rcases j with _ | j
  · omega
  · rcases j with _ | j
    · simp at hj
    · simp at hj

/-- C8 (amended): on an admitted connection the gateway first registers the
session in the registry (raising the session count by 1 when the id is
fresh) and immediately afterwards emits the `session_open` envelope tagged
with the session id and carrying the full header set — Device-Id, Client-Id,
Session-Id, Transport-Type, Authorization, and User-Id equal to the decimal
rendering of the authenticated user id — and both of these precede every
`data` envelope of that session (the first two events of the trace remain
the registration and the `session_open` send after the whole per-session
loop has run). -/
theorem C8_register_then_open (env : HwEnv) (st : GatewayState) (r : Request) (uid g : Nat)
    (hb : env.browser = false)
    (hauth : verifyJWTAuth env.decode env.now r = some uid)
    (hw : waitGatewayConnected env.busConnAt 2000 100 = true)
    (hup : env.upgradeOk = true)
    (hg : st.gatewayStream = some g)
    (hev : st.events = [])
    (hfresh : assocGet st.conns (sidOf env r uid) = none) :
    (HandleWebSocket env st r).1 = WsResult.sessionStarted (sidOf env r uid) env.newConnId ∧
    sidOf env r uid = (if headerGet r.headers "Session-Id" = "" then env.newUuid
      else headerGet r.headers "Session-Id") ∧
    openMsgOf env r uid =
      { event := EventType.session_open, sessionID := sidOf env r uid,
        headers := [("Device-Id", headerGet r.headers "Device-Id"),
                    ("Client-Id", headerGet r.headers "Client-Id"),
                    ("Session-Id", sidOf env r uid),
                    ("Transport-Type", headerGet r.headers "Transport-Type"),
                    ("Authorization", headerGet r.headers "Authorization"),
                    ("User-Id", toString uid)],
        messageType := 0, payload := [] } ∧
    (HandleWebSocket env st r).2.events =
      [GwEvent.storeSession (sidOf env r uid), GwEvent.busSend (openMsgOf env r uid)] ∧
    assocGet (HandleWebSocket env st r).2.conns (sidOf env r uid) = some env.newConnId ∧
    ActiveSessions (HandleWebSocket env st r).2 = ActiveSessions st + 1 ∧
    ∀ frames, ((runClientLoop (sidOf env r uid) env.newConnId frames
        (HandleWebSocket env st r).2).events).take 2 =
      [GwEvent.storeSession (sidOf env r uid), GwEvent.busSend (openMsgOf env r uid)] := by
  have hane : ∀ k' : String, k' ≠ "User-Id" →
      headerGet (headerSet r.headers "User-Id" (toString uid)) k' = headerGet r.headers k' :=
    fun k' h => headerGet_headerSet_ne _ _ _ _ h
  have hh := HandleWebSocket_admitted env st r uid hb hauth hw hup
  have hst1g : (connsStore
      { st with connStates :=
          assocSet st.connStates env.newConnId { closed := false, writes := [] } }
      (sidOf env r uid) env.newConnId).gatewayStream = some g := hg
  have hevents : (HandleWebSocket env st r).2.events =
      [GwEvent.storeSession (sidOf env r uid), GwEvent.busSend (openMsgOf env r uid)] := by
    rw [hh]
    rw [gatewaySend_events_of_some _ _ g hst1g]
    simp [connsStore, hev]
  refine ⟨?_, ?_, ?_, hevents, ?_, ?_, ?_⟩
  · rw [hh]
  · simp [sidOf, hane "Session-Id" (by decide)]
  · simp [openMsgOf, hane "Device-Id" (by decide), hane "Client-Id" (by decide),
      hane "Transport-Type" (by decide), hane "Authorization" (by decide),
      headerGet_headerSet_self]
  · rw [hh, gatewaySend_conns]
    simp [connsStore]
    exact assocGet_assocSet_self _ _ _
  · rw [hh]
    have hc : (HandleWebSocket env st r).2.conns =
        assocSet st.conns (sidOf env r uid) env.newConnId := by
      rw [hh, gatewaySend_conns]
      simp [connsStore]
    rw [← hh, ActiveSessions, hc, length_assocSet_of_none _ _ _ hfresh]
    rfl
  · intro frames
    obtain ⟨d, hd⟩ := runClientLoop_events_mono (sidOf env r uid) env.newConnId frames
      (HandleWebSocket env st r).2
    rw [hd, hevents]
    rfl

/-- Witness for C8 (amended): the admitted connection `rGoodW` under `envW`
starting from the empty-registry, bus-connected state, with the loop
forwarding one frame. -/
theorem C8_register_then_open_witness :
    (envW.browser = false ∧
      verifyJWTAuth envW.decode envW.now rGoodW = some 7 ∧
      waitGatewayConnected envW.busConnAt 2000 100 = true ∧
      envW.upgradeOk = true ∧
      stBusEmptyW.gatewayStream = some 0 ∧
      stBusEmptyW.events = [] ∧
      assocGet stBusEmptyW.conns (sidOf envW rGoodW 7) = none) ∧
    (HandleWebSocket envW stBusEmptyW rGoodW).1 =
      WsResult.sessionStarted (sidOf envW rGoodW 7) envW.newConnId ∧
    (HandleWebSocket envW stBusEmptyW rGoodW).2.events =
      [GwEvent.storeSession (sidOf envW rGoodW 7), GwEvent.busSend (openMsgOf envW rGoodW 7)] ∧
    ActiveSessions (HandleWebSocket envW stBusEmptyW rGoodW).2 =
      ActiveSessions stBusEmptyW + 1 ∧
    ((runClientLoop (sidOf envW rGoodW 7) envW.newConnId [(1, [7])]
        (HandleWebSocket envW stBusEmptyW rGoodW).2).events).take 2 =
      [GwEvent.storeSession (sidOf envW rGoodW 7), GwEvent.busSend (openMsgOf envW rGoodW 7)] := by
  have h := C8_register_then_open envW stBusEmptyW rGoodW 7 0 (by decide) (by decide)
    (by decide) (by decide) (by decide) (by decide) (by decide)
  exact ⟨⟨by decide, by decide, by decide, by decide, by decide, by decide, by decide⟩,
    h.1, h.2.2.2.1, h.2.2.2.2.2.1, h.2.2.2.2.2.2 [(1, [7])]⟩

/-- C10: session-id reuse overwrites the registry entry.  If an admitted
request presents a `Session-Id` header equal to a session id already
registered to connection `cidOld`, the registry entry for that id is
overwritten with the new connection (the registry count does not change)
while the old connection is neither closed nor written to; and when the old
connection's read loop later runs its deferred teardown, it deletes the
registry entry now belonging to the new session and sends a `session_close`
envelope for the shared id — so "exactly one delete per session" fails
across id reuse. -/
theorem C10_session_id_reuse (env : HwEnv) (st : GatewayState) (r : Request)
    (uid g cidOld : Nat) (sid : String)
    (hb : env.browser = false)
    (hauth : verifyJWTAuth env.decode env.now r = some uid)
    (hw : waitGatewayConnected env.busConnAt 2000 100 = true)
    (hup : env.upgradeOk = true)
    (hsid : headerGet r.headers "Session-Id" = sid)
    (hsne : sid ≠ "")
    (hold : assocGet st.conns sid = some cidOld)
    (hcid : env.newConnId ≠ cidOld)
    (hg : st.gatewayStream = some g) :
    sidOf env r uid = sid ∧
    assocGet (HandleWebSocket env st r).2.conns sid = some env.newConnId ∧
    ActiveSessions (HandleWebSocket env st r).2 = ActiveSessions st ∧
    getConn (HandleWebSocket env st r).2 cidOld = getConn st cidOld ∧
    assocGet (sessionTeardown sid cidOld (HandleWebSocket env st r).2).conns sid = none ∧
    countClose sid (sessionTeardown sid cidOld (HandleWebSocket env st r).2).sentToBus =
      countClose sid (HandleWebSocket env st r).2.sentToBus + 1 := by
  have hsidOf : sidOf env r uid = sid := by
    simp [sidOf, headerGet_headerSet_ne _ _ _ _
      (show ("Session-Id" : String) ≠ "User-Id" from by decide), hsid, hsne]
  have hh := HandleWebSocket_admitted env st r uid hb hauth hw hup
  rw [hsidOf] at hh
  have hst1g : (HandleWebSocket env st r).2.gatewayStream = some g := by
    rw [hh, gatewaySend_stream]
    exact hg
  refine ⟨hsidOf, ?_, ?_, ?_, ?_, ?_⟩
  · rw [hh, gatewaySend_conns]
    simp [connsStore]
    exact assocGet_assocSet_self _ _ _
  · have hc : (HandleWebSocket env st r).2.conns = assocSet st.conns sid env.newConnId := by
      rw [hh, gatewaySend_conns]
      simp [connsStore]
    rw [ActiveSessions, hc, length_assocSet_of_some _ _ _ cidOld hold]
    rfl
  · rw [hh, getConn_gatewaySend]
    simp [getConn, connsStore, assocGet_assocSet_ne _ _ _ _ (Ne.symm hcid)]
  · rw [sessionTeardown_conns]
    exact assocGet_assocDel_self _ _
  · exact sessionTeardown_countClose sid cidOld _ g hst1g

/-- Witness for C10: a second admitted connection (connection id 2) reusing
session id `s1`, which is registered to connection 1 in `stBusW`. -/
theorem C10_session_id_reuse_witness :
    (envReuseW.browser = false ∧
      verifyJWTAuth envReuseW.decode envReuseW.now rGoodW = some 7 ∧
      waitGatewayConnected envReuseW.busConnAt 2000 100 = true ∧
      envReuseW.upgradeOk = true ∧
      headerGet rGoodW.headers "Session-Id" = "s1" ∧
      ("s1" : String) ≠ "" ∧
      assocGet stBusW.conns "s1" = some 1 ∧
      envReuseW.newConnId ≠ 1 ∧
      stBusW.gatewayStream = some 0) ∧
    sidOf envReuseW rGoodW 7 = "s1" ∧
    assocGet (HandleWebSocket envReuseW stBusW rGoodW).2.conns "s1" =
      some envReuseW.newConnId ∧
    ActiveSessions (HandleWebSocket envReuseW stBusW rGoodW).2 = ActiveSessions stBusW ∧
    getConn (HandleWebSocket envReuseW stBusW rGoodW).2 1 = getConn stBusW 1 ∧
    assocGet (sessionTeardown "s1" 1 (HandleWebSocket envReuseW stBusW rGoodW).2).conns "s1" =
      none ∧
    countClose "s1" (sessionTeardown "s1" 1
        (HandleWebSocket envReuseW stBusW rGoodW).2).sentToBus =
      countClose "s1" (HandleWebSocket envReuseW stBusW rGoodW).2.sentToBus + 1 :=
  ⟨⟨by decide, by decide, by decide, by decide, by decide, by decide, by decide, by decide,
      by decide⟩,
    C10_session_id_reuse envReuseW stBusW rGoodW 7 0 1 "s1" (by decide) (by decide)
      (by decide) (by decide) (by decide) (by decide) (by decide) (by decide) (by decide)⟩
